import Mathlib

/-!
Shallow embedding of the `terminos_y_condiciones` cart-lifecycle engine
(`src/terminos_y_condiciones/workflows.py`, `activities.py`, `shared.py`).

Modelling choices:
* Python `float` money amounts are embedded as `Rat`.  Every claim compares
  amounts that the code derives by the very same arithmetic expression, so the
  exact-arithmetic embedding is faithful for these claims.
* The Python `dict[str, ...]` of cart lines is embedded as an insertion-ordered
  association list `List (String × LineItem)` (Python dicts preserve insertion
  order; new keys are appended, updates are in place, `del` removes the key).
* Signal handlers never raise; they are total functions on the workflow state.
  The `@workflow.update` handler `agregar_item_seguro` can raise
  `ApplicationError`; it is embedded as an `Except`-valued function, and
  raising means the state is left untouched.
-/

/-- `EstadoCarrito` from `shared.py`. -/
inductive EstadoCarrito where
  | ABIERTO
  | PAGADO
  | ENVIADO
  | ENTREGADO
  | CANCELADO
  | ABANDONADO
deriving DecidableEq, Repr

/-- The string value of each enum member (`EstadoCarrito(str, Enum)`),
used where the code interpolates the state into a message. -/
def valorEstado : EstadoCarrito → String
  | .ABIERTO => "ABIERTO"
  | .PAGADO => "PAGADO"
  | .ENVIADO => "ENVIADO"
  | .ENTREGADO => "ENTREGADO"
  | .CANCELADO => "CANCELADO"
  | .ABANDONADO => "ABANDONADO"

/-- `Item` dataclass from `shared.py`. -/
structure Item where
  item_id : String
  nombre : String
  precio : Rat
  cantidad : Int
deriving DecidableEq, Repr

/-- One stored cart line: the dict
`\x7b"nombre": ..., "precio": ..., "cantidad": ..., "subtotal": ...\x7d`
built in `agregar_item_carrito`. -/
structure LineItem where
  nombre : String
  precio : Rat
  cantidad : Int
  subtotal : Rat
deriving DecidableEq, Repr

/-- The three shapes `self.envio_resultado` takes in `workflows.py`:
the initial empty dict, the activity's success payload (an opaque JSON
value), or the failure dict `\x7b"status": "FALLIDO", "error": ...\x7d`. -/
inductive ResultadoEnvio where
  | vacio
  | exito (payload : String)
  | fallido (error : String)
deriving DecidableEq, Repr

/-- The mutable fields of `TerminosYCondicionesWorkflow`. -/
structure CartState where
  carrito_id : String
  usuario_id : String
  terminos_aceptados : Bool
  items_carrito : List (String × LineItem)
  total_carrito : Rat
  estado : EstadoCarrito
  envio_resultado : ResultadoEnvio
deriving DecidableEq, Repr

/-- `__init__` of the workflow class. -/
def estadoInicial : CartState :=
  { carrito_id := ""
    usuario_id := ""
    terminos_aceptados := false
    items_carrito := []
    total_carrito := 0
    estado := .ABIERTO
    envio_resultado := .vacio }

/-- State after the `run` method's prologue: `usuario_id` and `carrito_id`
are assigned (lines 26-29 of `workflows.py`). -/
def estadoInicialRun (usuario_id workflow_id : String) : CartState :=
  { estadoInicial with
      usuario_id := usuario_id
      carrito_id := "carrito-" ++ usuario_id ++ "-" ++ workflow_id }

/-- Membership test `item.item_id in self.items_carrito` on the dict keys. -/
def tieneItem (items : List (String × LineItem)) (id : String) : Bool :=
  items.any (fun p => p.1 = id)

/-- Dict lookup `self.items_carrito[item_id]`. -/
def buscarItem (items : List (String × LineItem)) (id : String) : Option LineItem :=
  (items.find? (fun p => p.1 = id)).map (fun p => p.2)

/-- `subtotal = item.precio * item.cantidad` as computed at insertion. -/
def subtotalDe (precio : Rat) (cantidad : Int) : Rat :=
  precio * cantidad

/-- In-place update `self.items_carrito[item.item_id]["cantidad"] += item.cantidad`:
only the `cantidad` field of the matching line changes; `subtotal` is NOT
recomputed by the code. -/
def incrementarCantidad (items : List (String × LineItem)) (id : String)
    (c : Int) : List (String × LineItem) :=
  items.map (fun p =>
    if p.1 = id then (p.1, { p.2 with cantidad := p.2.cantidad + c }) else p)

/-- `del self.items_carrito[item_id]` (dict keys are unique, so filtering
the key out is the same removal). -/
def eliminarItem (items : List (String × LineItem)) (id : String) :
    List (String × LineItem) :=
  items.filter (fun p => p.1 ≠ id)

/-- `sum(item["subtotal"] for item in self.items_carrito.values())`. -/
def sumaSubtotales (items : List (String × LineItem)) : Rat :=
  (items.map (fun p => p.2.subtotal)).sum

/-- `_recalcular_total` (workflows.py lines 183-190). -/
def recalcular_total (s : CartState) : CartState :=
  { s with total_carrito := sumaSubtotales s.items_carrito }

/-- Signal `agregar_item_carrito` (workflows.py lines 77-99). -/
def agregar_item_carrito (s : CartState) (item : Item) : CartState :=
  if s.estado ≠ .ABIERTO then s
  else
    let items' :=
      if tieneItem s.items_carrito item.item_id then
        incrementarCantidad s.items_carrito item.item_id item.cantidad
      else
        s.items_carrito ++
          [(item.item_id,
            { nombre := item.nombre
              precio := item.precio
              cantidad := item.cantidad
              subtotal := subtotalDe item.precio item.cantidad })]
    recalcular_total { s with items_carrito := items' }

/-- The two `ApplicationError`s `agregar_item_seguro` can raise: the
state-gate rejection (no error type given in the code) and the stock
rejection (error type `"StockInsuficiente"`). -/
inductive Rechazo where
  | estadoInvalido (mensaje : String)
  | stockInsuficiente (mensaje : String)
deriving DecidableEq, Repr

/-- The success dict returned by `agregar_item_seguro`. -/
structure RespuestaAgregar where
  mensaje : String
  item : String
  nuevo_total : Rat
deriving DecidableEq, Repr

/-- Update `agregar_item_seguro` (workflows.py lines 101-124): validation
first (state gate, then stock ceiling), and only then the same mutation as
the `agregar_item_carrito` signal, returning the new total. -/
def agregar_item_seguro (s : CartState) (item : Item) :
    Except Rechazo (CartState × RespuestaAgregar) :=
  if s.estado ≠ .ABIERTO then
    .error (.estadoInvalido
      ("No se pueden agregar items. El carrito está en estado: " ++
        valorEstado s.estado))
  else if item.cantidad > 5 then
    .error (.stockInsuficiente
      ("Stock insuficiente para " ++ item.nombre ++ ". Máximo disponible: 5"))
  else
    let s' := agregar_item_carrito s item
    .ok (s',
      { mensaje := "Item agregado correctamente"
        item := item.nombre
        nuevo_total := s'.total_carrito })

/-- The state effect of `agregar_item_seguro`: raising leaves the workflow
state untouched (the raise happens before any mutation). -/
def aplicarSeguro (s : CartState) (item : Item) : CartState :=
  match agregar_item_seguro s item with
  | .ok (s', _) => s'
  | .error _ => s

/-- Signal `remover_item_carrito` (workflows.py lines 126-137). -/
def remover_item_carrito (s : CartState) (item_id : String) : CartState :=
  if s.estado ≠ .ABIERTO then s
  else if tieneItem s.items_carrito item_id then
    recalcular_total { s with items_carrito := eliminarItem s.items_carrito item_id }
  else s

/-- Signal `aceptar_terminos` (workflows.py lines 139-147). -/
def aceptar_terminos (s : CartState) : CartState :=
  if s.estado ≠ .ABIERTO then s
  else { s with terminos_aceptados := true }

/-- Signal `completar_compra` (workflows.py lines 149-160). -/
def completar_compra (s : CartState) : CartState :=
  if s.estado = .ABIERTO then
    if ¬ s.terminos_aceptados then s
    else { s with estado := .PAGADO }
  else s

/-- Signal `confirmar_recepcion` (workflows.py lines 162-169). -/
def confirmar_recepcion (s : CartState) : CartState :=
  if s.estado = .ENVIADO then { s with estado := .ENTREGADO }
  else s

/-- Dict returned by the query `obtener_estado` (workflows.py lines 171-181). -/
structure Snapshot where
  items_carrito : List (String × LineItem)
  total_carrito : Rat
  estado_actual : EstadoCarrito
  terminos_aceptados : Bool
deriving DecidableEq, Repr

/-- Query `obtener_estado`: read-only. -/
def obtener_estado (s : CartState) : Snapshot :=
  { items_carrito := s.items_carrito
    total_carrito := s.total_carrito
    estado_actual := s.estado
    terminos_aceptados := s.terminos_aceptados }

/-- One outcome of the external shipment HTTP call in
`despachar_envio_activity` (activities.py): either the endpoint responded
(with a status code, a body text and a JSON payload), or the transport
failed (`httpx.RequestError`, carrying its message). -/
inductive RespuestaHTTP where
  | respuesta (status : Nat) (text : String) (json : String)
  | errorRed (mensaje : String)
deriving DecidableEq, Repr

/-- The exception re-raised by the activity on a retryable outcome: the
original `httpx.HTTPStatusError` (from `raise_for_status`) or the original
`httpx.RequestError`. -/
inductive ErrorTransporte where
  | httpStatus (status : Nat) (text : String)
  | red (mensaje : String)
deriving DecidableEq, Repr

/-- `str()` of the re-raised transport exception.  The exact text of the
`httpStatus` case is produced by the httpx library; only the `red` case
(whose message passes through unchanged) is relied on by any theorem. -/
def strErrorTransporte : ErrorTransporte → String
  | .httpStatus status text => "HTTP status error " ++ toString status ++ ": " ++ text
  | .red mensaje => mensaje

/-- What one attempt of `despachar_envio_activity` does with its outcome:
success returns the response JSON; a 4xx raises a non-retryable
`ApplicationError` (type `"NonRetryableAPIError"`, `non_retryable=True`)
wrapping the response text; a 5xx or a transport error re-raises the
original (retryable) exception. -/
inductive ResultadoActividad where
  | exito (payload : String)
  | falloNoReintentable (mensaje : String)
  | falloReintentable (causa : ErrorTransporte)
deriving DecidableEq, Repr

/-- `despachar_envio_activity` (activities.py lines 8-45), as a function of
the external call's outcome.  `response.raise_for_status()` raises
`httpx.HTTPStatusError` exactly when `400 ≤ status ≤ 599`; the handler then
wraps `4xx` as non-retryable and re-raises `5xx`; `httpx.RequestError` is
re-raised as-is. -/
def despachar_envio_activity : RespuestaHTTP → ResultadoActividad
  | .errorRed mensaje => .falloReintentable (.red mensaje)
  | .respuesta status text json =>
    if 400 ≤ status ∧ status < 500 then
      .falloNoReintentable ("Error de API no reintentable: " ++ text)
    else if 500 ≤ status ∧ status < 600 then
      .falloReintentable (.httpStatus status text)
    else
      .exito json

/-- The cause carried by the `ActivityError` the workflow catches: either
the non-retryable `ApplicationError` raised on a 4xx, or — when the retry
budget is exhausted — the last attempt's retryable exception. -/
inductive CausaFallo where
  | noReintentable (mensaje : String)
  | agotado (ultimo : ErrorTransporte)
deriving DecidableEq, Repr

/-- `str(e.cause)` as used in the workflow's failure record: the message of
the non-retryable `ApplicationError`, or the string of the last retryable
exception. -/
def strCausa : CausaFallo → String
  | .noReintentable mensaje => mensaje
  | .agotado ultimo => strErrorTransporte ultimo

/-- Modelled from the spec: the durable-execution host's activity retry
driver (§4.3 retry policy, §7 propagation policy), applied to the
`RetryPolicy` declared in `run` (`maximum_attempts=3`): each attempt sees
the next external outcome; success stops; a non-retryable failure stops at
once regardless of remaining budget; a retryable failure retries until the
budget is exhausted, and the final error's cause is the last attempt's
exception.  Returns the outcome plus the number of attempts made.  The
retry loop itself lives in the Temporal library, not in `src/`. -/
def reintentar : List RespuestaHTTP → Nat → Except CausaFallo String × Nat
  | _, 0 => (.error (.agotado (.red "sin intentos")), 0)
  | respuestas, n + 1 =>
    match despachar_envio_activity (respuestas.headD (.errorRed "sin respuesta")) with
    | .exito payload => (.ok payload, 1)
    | .falloNoReintentable mensaje => (.error (.noReintentable mensaje), 1)
    | .falloReintentable causa =>
      if n = 0 then (.error (.agotado causa), 1)
      else
        let r := reintentar respuestas.tail n
        (r.1, r.2 + 1)

/-- `maximum_attempts=3` from the `RetryPolicy` in `run`. -/
def maxIntentos : Nat := 3

/-- The mutation commands a caller can issue against a running workflow:
the five `@workflow.signal` handlers plus the `@workflow.update` handler. -/
inductive Comando where
  | agregar (item : Item)
  | seguro (item : Item)
  | remover (item_id : String)
  | aceptar
  | completar
  | confirmar
deriving DecidableEq, Repr

/-- Effect of one mutation command on the workflow state. -/
def aplicarComando : Comando → CartState → CartState
  | .agregar item, s => agregar_item_carrito s item
  | .seguro item, s => aplicarSeguro s item
  | .remover item_id, s => remover_item_carrito s item_id
  | .aceptar, s => aceptar_terminos s
  | .completar, s => completar_compra s
  | .confirmar, s => confirmar_recepcion s

/-- One event of the lifecycle: a mutation command, or one of the three
state changes `run` itself performs — the 30-minute timeout firing while
the payment condition `estado in [PAGADO, CANCELADO]` is still false
(lines 34-41), the shipment activity resolving successfully (lines 53-64),
or the shipment activity failing terminally (lines 65-69).  The latter two
carry the guard `estado = PAGADO` because `run` only reaches the shipment
phase with the cart paid. -/
inductive Evento where
  | comando (c : Comando)
  | timeoutAbandono
  | envioExito (payload : String)
  | envioFallo (causa : CausaFallo)
deriving DecidableEq, Repr

/-- Effect of one lifecycle event on the workflow state. -/
def aplicarEvento : Evento → CartState → CartState
  | .comando c, s => aplicarComando c s
  | .timeoutAbandono, s =>
    if s.estado ≠ .PAGADO ∧ s.estado ≠ .CANCELADO then { s with estado := .ABANDONADO }
    else s
  | .envioExito payload, s =>
    if s.estado = .PAGADO then
      { s with envio_resultado := .exito payload, estado := .ENVIADO }
    else s
  | .envioFallo causa, s =>
    if s.estado = .PAGADO then
      { s with envio_resultado := .fallido (strCausa causa) }
    else s

/-- Position of a state along the lifecycle graph
`OPEN → (PAID|CANCELLED|ABANDONED) → SHIPPED → DELIVERED` (§4.4). -/
def rango : EstadoCarrito → Nat
  | .ABIERTO => 0
  | .PAGADO => 1
  | .ENVIADO => 2
  | .ENTREGADO => 3
  | .CANCELADO => 3
  | .ABANDONADO => 3

/-- A snapshot is terminal when its lifecycle is over: state `ABANDONADO`,
`ENTREGADO` or `CANCELADO`, or shipment failed terminally (state still
`PAGADO` with a `FALLIDO` shipment record). -/
def esTerminal (s : CartState) : Bool :=
  s.estado = .ABANDONADO || s.estado = .ENTREGADO || s.estado = .CANCELADO ||
    (s.estado = .PAGADO && (match s.envio_resultado with
      | .fallido _ => true
      | _ => false))

/-- The dict built by `_estado_final` (workflows.py lines 192-203). -/
structure ResultadoFinal where
  carrito_id : String
  usuario_id : String
  terminos_aceptados : Bool
  items_carrito : List (String × LineItem)
  total_carrito : Rat
  detalles_envio : ResultadoEnvio
  estado_carrito : EstadoCarrito
  resultado_workflow : String
deriving DecidableEq, Repr

/-- `_estado_final`. -/
def estado_final (s : CartState) (resultado_workflow : String) : ResultadoFinal :=
  { carrito_id := s.carrito_id
    usuario_id := s.usuario_id
    terminos_aceptados := s.terminos_aceptados
    items_carrito := s.items_carrito
    total_carrito := s.total_carrito
    detalles_envio := s.envio_resultado
    estado_carrito := s.estado
    resultado_workflow := resultado_workflow }

/-- Result of the whole workflow run, together with whether the shipment
activity was ever invoked. -/
structure Ejecucion where
  resultado : ResultadoFinal
  envioInvocado : Bool
deriving DecidableEq, Repr

/-- The first `workflow.wait_condition` of `run`: commands delivered before
the 30-minute deadline are applied in order; the wait resumes as soon as
`estado in [PAGADO, CANCELADO]` holds.  Returns `(true, s)` if the
condition was met (at state `s`), or `(false, s)` if every pre-deadline
command was consumed without meeting it — the timeout branch. -/
def esperarPago : List Comando → CartState → Bool × CartState
  | cs, s =>
    if s.estado = .PAGADO ∨ s.estado = .CANCELADO then (true, s)
    else
      match cs with
      | [] => (false, s)
      | c :: resto => esperarPago resto (aplicarComando c s)

/-- The third-phase `workflow.wait_condition`: commands are applied in
order until `estado = ENTREGADO`; `none` means the wait never completes
(no timeout is attached to it). -/
def esperarEntrega : List Comando → CartState → Option CartState
  | cs, s =>
    if s.estado = .ENTREGADO then some s
    else
      match cs with
      | [] => none
      | c :: resto => esperarEntrega resto (aplicarComando c s)

/-- The `run` method (workflows.py lines 21-75) as a function of its
environment: the commands delivered during the purchase-phase wait, the
sequence of external shipment-call outcomes (consumed by the retry
driver), and the commands delivered during the delivery-phase wait.
`none` means the run blocks forever awaiting delivery confirmation. -/
def runWorkflow (usuario_id workflow_id : String)
    (comandosCompra : List Comando) (respuestasEnvio : List RespuestaHTTP)
    (comandosEntrega : List Comando) : Option Ejecucion :=
  let s0 := estadoInicialRun usuario_id workflow_id
  match esperarPago comandosCompra s0 with
  | (false, s1) =>
    some { resultado := estado_final { s1 with estado := .ABANDONADO } "ABANDONADO_TIMEOUT"
           envioInvocado := false }
  | (true, s1) =>
    if s1.estado = .CANCELADO then
      some { resultado := estado_final s1 "CANCELADO_POR_USUARIO", envioInvocado := false }
    else
      match (reintentar respuestasEnvio maxIntentos).1 with
      | .error causa =>
        let s2 := { s1 with envio_resultado := .fallido (strCausa causa) }
        some { resultado := estado_final s2 "ENVIO_FALLIDO", envioInvocado := true }
      | .ok payload =>
        let s2 := { s1 with envio_resultado := .exito payload, estado := .ENVIADO }
        match esperarEntrega comandosEntrega s2 with
        | none => none
        | some s3 =>
          some { resultado := estado_final s3 "COMPLETADO_ENTREGADO", envioInvocado := true }

/-- `cs.foldl`: a sequence of mutation commands applied in order. -/
def aplicarComandos (cs : List Comando) (s : CartState) : CartState :=
  cs.foldl (fun s c => aplicarComando c s) s

/-- Whether a command is one of the two item mutations `add_item` /
`remove_item`. -/
def esComandoItem : Comando → Bool
  | .agregar _ => true
  | .remover _ => true
  | _ => false

/-- Concrete item used by the concrete-input theorems. -/
def itemFusion : Item :=
  { item_id := "a", nombre := "manzana", precio := 2, cantidad := 1 }

/-- Concrete item with quantity 6, above the stock ceiling. -/
def itemSeis : Item :=
  { item_id := "b", nombre := "pera", precio := 3, cantidad := 6 }

/-- The cart after adding `itemFusion` twice from a fresh state: the second
add merges into the existing line. -/
def carritoFusion : CartState :=
  agregar_item_carrito (agregar_item_carrito (estadoInicialRun "u" "w") itemFusion) itemFusion

/-- A concrete paid cart (all item-mutation gates closed). -/
def carritoPagado : CartState :=
  { estadoInicial with estado := .PAGADO }

/-- A concrete abandoned (terminal) cart. -/
def carritoAbandonado : CartState :=
  { estadoInicial with estado := .ABANDONADO }

/-- Three consecutive retryable transport failures; the last one's message
happens to match the text a 4xx rejection would produce. -/
def respuestasAgotadas : List RespuestaHTTP :=
  [.errorRed "Error de API no reintentable: boom",
   .errorRed "otra vez",
   .errorRed "Error de API no reintentable: boom"]

/-- A single 4xx response: terminal policy rejection on the first attempt. -/
def respuestasRechazo : List RespuestaHTTP :=
  [.respuesta 400 "boom" ""]

/-! ### Helper lemmas -/

theorem agregar_estado (s : CartState) (it : Item) :
    (agregar_item_carrito s it).estado = s.estado := by
  unfold agregar_item_carrito recalcular_total
  split <;> rfl

theorem agregar_envio (s : CartState) (it : Item) :
    (agregar_item_carrito s it).envio_resultado = s.envio_resultado := by
  unfold agregar_item_carrito recalcular_total
  split <;> rfl

/-- `agregar_item_seguro`'s state effect, as a single conditional: it
mutates exactly when the state gate and the stock check pass, and then via
`agregar_item_carrito`. -/
theorem aplicarSeguro_eq (s : CartState) (it : Item) :
    aplicarSeguro s it =
      if s.estado = .ABIERTO ∧ it.cantidad ≤ 5 then agregar_item_carrito s it else s := by
  unfold aplicarSeguro agregar_item_seguro
  by_cases h1 : s.estado = .ABIERTO
  · by_cases h2 : it.cantidad > 5
    · have h2' : ¬ it.cantidad ≤ 5 := by omega
      simp [h1, h2, h2']
    · have h2' : it.cantidad ≤ 5 := by omega
      simp [h1, h2, h2']
  · simp [h1]

theorem seguro_estado (s : CartState) (it : Item) :
    (aplicarSeguro s it).estado = s.estado := by
  rw [aplicarSeguro_eq]
  split
  · exact agregar_estado s it
  · rfl

theorem seguro_envio (s : CartState) (it : Item) :
    (aplicarSeguro s it).envio_resultado = s.envio_resultado := by
  rw [aplicarSeguro_eq]
  split
  · exact agregar_envio s it
  · rfl

theorem remover_estado (s : CartState) (id : String) :
    (remover_item_carrito s id).estado = s.estado := by
  unfold remover_item_carrito recalcular_total
  split
  · rfl
  · split <;> rfl

theorem remover_envio (s : CartState) (id : String) :
    (remover_item_carrito s id).envio_resultado = s.envio_resultado := by
  unfold remover_item_carrito recalcular_total
  split
  · rfl
  · split <;> rfl

theorem aceptar_estado (s : CartState) :
    (aceptar_terminos s).estado = s.estado := by
  unfold aceptar_terminos
  split <;> rfl

theorem aceptar_envio (s : CartState) :
    (aceptar_terminos s).envio_resultado = s.envio_resultado := by
  unfold aceptar_terminos
  split <;> rfl

theorem completar_envio (s : CartState) :
    (completar_compra s).envio_resultado = s.envio_resultado := by
  unfold completar_compra
  split
  · split <;> rfl
  · rfl

theorem confirmar_envio (s : CartState) :
    (confirmar_recepcion s).envio_resultado = s.envio_resultado := by
  unfold confirmar_recepcion
  split <;> rfl

theorem aplicarComando_envio (c : Comando) (s : CartState) :
    (aplicarComando c s).envio_resultado = s.envio_resultado := by
  cases c with
  | agregar it => exact agregar_envio s it
  | seguro it => exact seguro_envio s it
  | remover id => exact remover_envio s id
  | aceptar => exact aceptar_envio s
  | completar => exact completar_envio s
  | confirmar => exact confirmar_envio s

/-- A command in a state other than `ABIERTO` and `ENVIADO` finds every
handler's gate closed and leaves the whole state unchanged. -/
theorem aplicarComando_cerrado (c : Comando) (s : CartState)
    (h1 : s.estado ≠ .ABIERTO) (h2 : s.estado ≠ .ENVIADO) :
    aplicarComando c s = s := by
  cases c with
  | agregar it =>
    show agregar_item_carrito s it = s
    unfold agregar_item_carrito
    simp [h1]
  | seguro it =>
    show aplicarSeguro s it = s
    rw [aplicarSeguro_eq]
    simp [h1]
  | remover id =>
    show remover_item_carrito s id = s
    unfold remover_item_carrito
    simp [h1]
  | aceptar =>
    show aceptar_terminos s = s
    unfold aceptar_terminos
    simp [h1]
  | completar =>
    show completar_compra s = s
    unfold completar_compra
    simp [h1]
  | confirmar =>
    show confirmar_recepcion s = s
    unfold confirmar_recepcion
    simp [h2]

theorem rango_le_tres (es : EstadoCarrito) : rango es ≤ 3 := by
  cases es <;> decide

theorem aplicarComando_monotono (c : Comando) (s : CartState) :
    rango s.estado ≤ rango (aplicarComando c s).estado := by
  cases c with
  | agregar it => rw [show (aplicarComando (.agregar it) s).estado = s.estado from agregar_estado s it]
  | seguro it => rw [show (aplicarComando (.seguro it) s).estado = s.estado from seguro_estado s it]
  | remover id => rw [show (aplicarComando (.remover id) s).estado = s.estado from remover_estado s id]
  | aceptar => rw [show (aplicarComando .aceptar s).estado = s.estado from aceptar_estado s]
  | completar =>
    show rango s.estado ≤ rango (completar_compra s).estado
    unfold completar_compra
    split
    · split
      · exact Nat.le_refl _
      · rename_i h _
        rw [h]
        show rango EstadoCarrito.ABIERTO ≤ rango EstadoCarrito.PAGADO
        decide
    · exact Nat.le_refl _
  | confirmar =>
    show rango s.estado ≤ rango (confirmar_recepcion s).estado
    unfold confirmar_recepcion
    split
    · rename_i h
      rw [h]
      show rango EstadoCarrito.ENVIADO ≤ rango EstadoCarrito.ENTREGADO
      decide
    · exact Nat.le_refl _

theorem aplicarEvento_monotono (e : Evento) (s : CartState) :
    rango s.estado ≤ rango (aplicarEvento e s).estado := by
  cases e with
  | comando c => exact aplicarComando_monotono c s
  | timeoutAbandono =>
    simp only [aplicarEvento]
    split
    · exact rango_le_tres s.estado
    · exact Nat.le_refl _
  | envioExito payload =>
    simp only [aplicarEvento]
    split
    · rename_i h
      rw [h]
      show rango EstadoCarrito.PAGADO ≤ rango EstadoCarrito.ENVIADO
      decide
    · exact Nat.le_refl _
  | envioFallo causa =>
    simp only [aplicarEvento]
    split
    · exact Nat.le_refl _
    · exact Nat.le_refl _

/-- In a terminal snapshot every command's gate is closed. -/
theorem esTerminal_cerrado (s : CartState) (h : esTerminal s = true) :
    s.estado ≠ .ABIERTO ∧ s.estado ≠ .ENVIADO := by
  unfold esTerminal at h
  constructor
  · intro hh
    rw [hh] at h
    simp at h
  · intro hh
    rw [hh] at h
    simp at h

theorem esperarPago_envio (cs : List Comando) :
    ∀ s : CartState, ((esperarPago cs s).2).envio_resultado = s.envio_resultado := by
  induction cs with
  | nil =>
    intro s
    unfold esperarPago
    split <;> rfl
  | cons c resto ih =>
    intro s
    unfold esperarPago
    split
    · rfl
    · rw [ih, aplicarComando_envio]

theorem tieneItem_eliminar (items : List (String × LineItem)) (id : String) :
    tieneItem (eliminarItem items id) id = false := by
  unfold tieneItem eliminarItem
  simp only [List.any_eq_false]
  intro p hp
  rcases List.mem_filter.mp hp with ⟨-, hkey⟩
  simpa using hkey

/-- The `total == sum of stored subtotals` invariant. -/
def totalCoherente (s : CartState) : Prop :=
  s.total_carrito = sumaSubtotales s.items_carrito

theorem totalCoherente_agregar (s : CartState) (it : Item)
    (h : totalCoherente s) : totalCoherente (agregar_item_carrito s it) := by
  unfold totalCoherente agregar_item_carrito recalcular_total
  split
  · exact h
  · rfl

theorem totalCoherente_remover (s : CartState) (id : String)
    (h : totalCoherente s) : totalCoherente (remover_item_carrito s id) := by
  unfold totalCoherente remover_item_carrito recalcular_total
  split
  · exact h
  · split
    · rfl
    · exact h

theorem totalCoherente_comando (c : Comando) (s : CartState)
    (h : totalCoherente s) : totalCoherente (aplicarComando c s) := by
  cases c with
  | agregar it => exact totalCoherente_agregar s it h
  | seguro it =>
    show totalCoherente (aplicarSeguro s it)
    rw [aplicarSeguro_eq]
    split
    · exact totalCoherente_agregar s it h
    · exact h
  | remover id => exact totalCoherente_remover s id h
  | aceptar =>
    show totalCoherente (aceptar_terminos s)
    unfold totalCoherente aceptar_terminos
    split
    · exact h
    · exact h
  | completar =>
    show totalCoherente (completar_compra s)
    unfold totalCoherente completar_compra
    split
    · split
      · exact h
      · exact h
    · exact h
  | confirmar =>
    show totalCoherente (confirmar_recepcion s)
    unfold totalCoherente confirmar_recepcion
    split
    · exact h
    · exact h

theorem totalCoherente_comandos (cs : List Comando) :
    ∀ s : CartState, totalCoherente s → totalCoherente (aplicarComandos cs s) := by
  induction cs with
  | nil => intro s h; exact h
  | cons c resto ih =>
    intro s h
    exact ih (aplicarComando c s) (totalCoherente_comando c s h)

/-- Evaluation of `carritoFusion`: the merge leaves `subtotal` (and hence
`total`) at the single-unit value `2` while `cantidad` becomes `2`. -/
theorem carritoFusion_eq : carritoFusion =
    { estadoInicialRun "u" "w" with
        items_carrito := [("a", { nombre := "manzana", precio := 2, cantidad := 2, subtotal := 2 })]
        total_carrito := 2 } := by
  unfold carritoFusion agregar_item_carrito
  norm_num [estadoInicialRun, estadoInicial, itemFusion, tieneItem, incrementarCantidad,
    recalcular_total, sumaSubtotales, subtotalDe]

/-! ### Claims -/

/-- Claim C1 (code bug exhibit): adding the same `item_id` twice while
`ABIERTO` merges quantities but leaves the stored `subtotal` at its old
value, so the stored `subtotal` no longer equals `unit_price * quantity`
(and the recomputed `total` inherits the stale value).  With
`precio = 2, cantidad = 1` added twice, the stored line has `cantidad = 2`
but `subtotal = 2` instead of `subtotalDe 2 2 = 4`. -/
theorem subtotal_desfasado_en_fusion :
    (∃ li, buscarItem carritoFusion.items_carrito "a" = some li ∧
      li.precio = 2 ∧ li.cantidad = 2 ∧ li.subtotal = 2 ∧
      li.subtotal ≠ subtotalDe li.precio li.cantidad) ∧
    carritoFusion.total_carrito = 2 := by
  refine ⟨⟨{ nombre := "manzana", precio := 2, cantidad := 2, subtotal := 2 }, ?_, rfl, rfl, rfl, ?_⟩, ?_⟩
  · rw [carritoFusion_eq]
    norm_num [buscarItem, List.find?]
  · norm_num [subtotalDe]
  · rw [carritoFusion_eq]

/-- Claim C2: `agregar_item_seguro` rejects with the state-gate
`ApplicationError` when the cart is not `ABIERTO`, rejects with the
`StockInsuficiente` error when the requested quantity exceeds 5 while
`ABIERTO`, and in either rejection case the workflow state (items, total,
terms, state, shipment record) is left untouched — the raise happens
before any mutation. -/
theorem agregar_item_seguro_rechazos :
    ∀ (s : CartState) (it : Item),
      (s.estado ≠ .ABIERTO →
        agregar_item_seguro s it =
          .error (.estadoInvalido
            ("No se pueden agregar items. El carrito está en estado: " ++
              valorEstado s.estado)) ∧
        aplicarSeguro s it = s) ∧
      (s.estado = .ABIERTO → it.cantidad > 5 →
        agregar_item_seguro s it =
          .error (.stockInsuficiente
            ("Stock insuficiente para " ++ it.nombre ++ ". Máximo disponible: 5")) ∧
        aplicarSeguro s it = s) := by
  intro s it
  constructor
  · intro h
    constructor
    · unfold agregar_item_seguro
      simp [h]
    · rw [aplicarSeguro_eq]
      simp [h]
  · intro h1 h2
    constructor
    · unfold agregar_item_seguro
      simp [h1, h2]
    · rw [aplicarSeguro_eq]
      have : ¬ it.cantidad ≤ 5 := by omega
      simp [this]

/-- Witness for C2 at concrete inputs: a paid cart rejects any add, and a
fresh open cart rejects quantity 6 without mutating. -/
theorem agregar_item_seguro_rechazos_testigo :
    (agregar_item_seguro carritoPagado itemFusion =
      .error (.estadoInvalido
        ("No se pueden agregar items. El carrito está en estado: " ++
          valorEstado carritoPagado.estado))) ∧
    aplicarSeguro (estadoInicialRun "u" "w") itemSeis = estadoInicialRun "u" "w" :=
  ⟨((agregar_item_seguro_rechazos carritoPagado itemFusion).1 (by decide)).1,
   ((agregar_item_seguro_rechazos (estadoInicialRun "u" "w") itemSeis).2 rfl (by decide)).2⟩

/-- Claim C3: starting from a fresh cart (state `ABIERTO`), after any
sequence of `add_item` / `remove_item` commands the cart's `total` equals
the sum of the stored `subtotal` fields of the current lines. -/
theorem total_es_suma_subtotales :
    ∀ (u w : String) (cs : List Comando),
      (∀ c ∈ cs, esComandoItem c = true) →
      (aplicarComandos cs (estadoInicialRun u w)).total_carrito =
        sumaSubtotales (aplicarComandos cs (estadoInicialRun u w)).items_carrito := by
  intro u w cs _
  exact totalCoherente_comandos cs (estadoInicialRun u w) rfl

/-- Witness for C3: an add / add-merge / remove sequence keeps
`total = sum of subtotals`. -/
theorem total_es_suma_subtotales_testigo :
    (aplicarComandos [.agregar itemFusion, .agregar itemFusion, .remover "a"]
        (estadoInicialRun "u" "w")).total_carrito =
      sumaSubtotales
        (aplicarComandos [.agregar itemFusion, .agregar itemFusion, .remover "a"]
          (estadoInicialRun "u" "w")).items_carrito :=
  total_es_suma_subtotales "u" "w"
    [.agregar itemFusion, .agregar itemFusion, .remover "a"] (by decide)

/-- Claim C4: along every lifecycle event (mutation command, timeout,
shipment resolution) the state's position in the lifecycle graph never
decreases, and in a terminal snapshot (`ABANDONADO`, `ENTREGADO`,
`CANCELADO`, or shipment-failed) every mutation command leaves the whole
state unchanged. -/
theorem estado_monotono_terminal_fijo :
    (∀ (e : Evento) (s : CartState), rango s.estado ≤ rango (aplicarEvento e s).estado) ∧
    (∀ (c : Comando) (s : CartState), esTerminal s = true → aplicarComando c s = s) :=
  ⟨aplicarEvento_monotono,
   fun c s h =>
     aplicarComando_cerrado c s (esTerminal_cerrado s h).1 (esTerminal_cerrado s h).2⟩

/-- Witness for C4: monotonicity at a concrete event, and terminal
fixedness on a concrete abandoned cart. -/
theorem estado_monotono_terminal_fijo_testigo :
    rango carritoAbandonado.estado ≤
      rango (aplicarEvento (.comando .completar) carritoAbandonado).estado ∧
    aplicarComando .completar carritoAbandonado = carritoAbandonado :=
  ⟨estado_monotono_terminal_fijo.1 (.comando .completar) carritoAbandonado,
   estado_monotono_terminal_fijo.2 .completar carritoAbandonado (by decide)⟩

/-- Claim C5: a mutation signal whose state gate is not satisfied is a
silent no-op — the whole snapshot (items, total, state, terms, shipment
record) is unchanged.  Signal handlers are total functions in this
embedding: they never raise to the caller. -/
theorem senales_bloqueadas_sin_efecto :
    ∀ (s : CartState) (it : Item) (id : String),
      (s.estado ≠ .ABIERTO →
        agregar_item_carrito s it = s ∧
        remover_item_carrito s id = s ∧
        aceptar_terminos s = s) ∧
      (s.estado ≠ .ABIERTO ∨ s.terminos_aceptados = false → completar_compra s = s) ∧
      (s.estado ≠ .ENVIADO → confirmar_recepcion s = s) := by
  intro s it id
  refine ⟨?_, ?_, ?_⟩
  · intro h
    refine ⟨?_, ?_, ?_⟩
    · unfold agregar_item_carrito
      simp [h]
    · unfold remover_item_carrito
      simp [h]
    · unfold aceptar_terminos
      simp [h]
  · intro h
    unfold completar_compra
    rcases h with h | h
    · simp [h]
    · split
      · simp [h]
      · rfl
  · intro h
    unfold confirmar_recepcion
    simp [h]

/-- Witness for C5: on a concrete paid cart, adding an item, marking ready
to ship and confirming delivery all leave the snapshot identical. -/
theorem senales_bloqueadas_sin_efecto_testigo :
    agregar_item_carrito carritoPagado itemFusion = carritoPagado ∧
    completar_compra carritoPagado = carritoPagado ∧
    confirmar_recepcion carritoPagado = carritoPagado :=
  ⟨((senales_bloqueadas_sin_efecto carritoPagado itemFusion "a").1 (by decide)).1,
   (senales_bloqueadas_sin_efecto carritoPagado itemFusion "a").2.1 (Or.inl (by decide)),
   (senales_bloqueadas_sin_efecto carritoPagado itemFusion "a").2.2 (by decide)⟩

/-- Claim C9: with the cart `ABIERTO` and quantity at most 5,
`agregar_item_seguro` succeeds, its state effect is exactly
`agregar_item_carrito` on the same item, and the returned payload echoes
the new total. -/
theorem seguro_equivale_a_senal :
    ∀ (s : CartState) (it : Item),
      s.estado = .ABIERTO → it.cantidad ≤ 5 →
      agregar_item_seguro s it =
        .ok (agregar_item_carrito s it,
          { mensaje := "Item agregado correctamente"
            item := it.nombre
            nuevo_total := (agregar_item_carrito s it).total_carrito }) := by
  intro s it h1 h2
  unfold agregar_item_seguro
  have h2' : ¬ it.cantidad > 5 := by omega
  simp [h1, h2']

/-- Witness for C9 on a fresh cart and `itemFusion`. -/
theorem seguro_equivale_a_senal_testigo :
    agregar_item_seguro (estadoInicialRun "u" "w") itemFusion =
      .ok (agregar_item_carrito (estadoInicialRun "u" "w") itemFusion,
        { mensaje := "Item agregado correctamente"
          item := itemFusion.nombre
          nuevo_total := (agregar_item_carrito (estadoInicialRun "u" "w") itemFusion).total_carrito }) :=
  seguro_equivale_a_senal (estadoInicialRun "u" "w") itemFusion rfl (by decide)

/-- Claim C10: removing an `item_id` that is not in the cart is a silent
no-op on the whole snapshot, and `remover_item_carrito` is idempotent:
removing the same id twice equals removing it once. -/
theorem remover_inexistente_idempotente :
    ∀ (s : CartState) (id : String),
      (tieneItem s.items_carrito id = false → remover_item_carrito s id = s) ∧
      remover_item_carrito (remover_item_carrito s id) id = remover_item_carrito s id := by
  intro s id
  constructor
  · intro h
    unfold remover_item_carrito
    simp [h]
  · by_cases h1 : s.estado = .ABIERTO
    · by_cases h2 : tieneItem s.items_carrito id = true
      · have hfirst : remover_item_carrito s id =
            recalcular_total { s with items_carrito := eliminarItem s.items_carrito id } := by
          unfold remover_item_carrito
          simp [h1, h2]
        rw [hfirst]
        unfold remover_item_carrito
        simp [recalcular_total, h1, tieneItem_eliminar]
      · have hfirst : remover_item_carrito s id = s := by
          unfold remover_item_carrito
          simp [h1, h2]
        rw [hfirst, hfirst]
    · have hfirst : remover_item_carrito s id = s := by
        unfold remover_item_carrito
        simp [h1]
      rw [hfirst, hfirst]

/-- Witness for C10: removing an absent id from a fresh cart changes
nothing. -/
theorem remover_inexistente_idempotente_testigo :
    remover_item_carrito (estadoInicialRun "u" "w") "zzz" = estadoInicialRun "u" "w" :=
  (remover_inexistente_idempotente (estadoInicialRun "u" "w") "zzz").1 (by decide)

/-- Claim C6: the activity classifies every failure of the external call
into exactly two buckets — a 4xx response becomes the non-retryable
`ApplicationError` carrying the upstream message, and under the declared
retry policy it is never retried (one attempt, whatever the remaining
budget); a 5xx response or a transport error is re-raised as retryable. -/
theorem clasificacion_despacho_envio :
    ∀ (status : Nat) (text json mensaje : String) (resto : List RespuestaHTTP) (n : Nat),
      (400 ≤ status → status < 500 →
        despachar_envio_activity (.respuesta status text json) =
          .falloNoReintentable ("Error de API no reintentable: " ++ text) ∧
        reintentar (.respuesta status text json :: resto) (n + 1) =
          (.error (.noReintentable ("Error de API no reintentable: " ++ text)), 1)) ∧
      (500 ≤ status → status < 600 →
        despachar_envio_activity (.respuesta status text json) =
          .falloReintentable (.httpStatus status text)) ∧
      despachar_envio_activity (.errorRed mensaje) = .falloReintentable (.red mensaje) := by
  intro status text json mensaje resto n
  refine ⟨?_, ?_, rfl⟩
  · intro h1 h2
    constructor
    · unfold despachar_envio_activity
      simp [h1, h2]
    · unfold reintentar
      simp [despachar_envio_activity, h1, h2]
  · intro h1 h2
    have h3 : ¬ (400 ≤ status ∧ status < 500) := by omega
    unfold despachar_envio_activity
    simp [h3, h1, h2]

/-- Witness for C6 at statuses 404 (policy rejection, single attempt even
with budget 3) and 503 (retryable). -/
theorem clasificacion_despacho_envio_testigo :
    despachar_envio_activity (.respuesta 404 "no existe" "") =
      .falloNoReintentable ("Error de API no reintentable: " ++ "no existe") ∧
    reintentar [.respuesta 404 "no existe" ""] 3 =
      (.error (.noReintentable ("Error de API no reintentable: " ++ "no existe")), 1) ∧
    despachar_envio_activity (.respuesta 503 "caido" "") =
      .falloReintentable (.httpStatus 503 "caido") :=
  ⟨((clasificacion_despacho_envio 404 "no existe" "" "" [] 2).1 (by decide) (by decide)).1,
   ((clasificacion_despacho_envio 404 "no existe" "" "" [] 2).1 (by decide) (by decide)).2,
   (clasificacion_despacho_envio 503 "caido" "" "" [] 0).2.1 (by decide) (by decide)⟩

/-- Claim C7, counterexample: a run that exhausts the retry budget (three
retryable transport failures) and a run rejected by policy on the first
attempt (status 400) produce IDENTICAL final results — same items, total,
state `PAGADO`, same `detalles_envio` record and the same outcome tag
`ENVIO_FALLIDO` — because the workflow collapses both causes into
`\x7b"status": "FALLIDO", "error": str(e.cause)\x7d`, and the cause
strings coincide here.  The caller cannot tell "gave up after retries"
from "rejected by policy" from the final record. -/
theorem envio_fallido_indistinguible_contraejemplo :
    reintentar respuestasAgotadas maxIntentos =
      (.error (.agotado (.red "Error de API no reintentable: boom")), 3) ∧
    reintentar respuestasRechazo maxIntentos =
      (.error (.noReintentable "Error de API no reintentable: boom"), 1) ∧
    runWorkflow "u" "w" [.aceptar, .completar] respuestasAgotadas [] =
      runWorkflow "u" "w" [.aceptar, .completar] respuestasRechazo [] :=
  ⟨rfl, rfl, rfl⟩

/-- Claim C7 as amended: whenever the shipment step fails — whether by
retry exhaustion or by a 4xx policy rejection — the lifecycle ends with
the same record shape: outcome tag `ENVIO_FALLIDO` and
`detalles_envio = FALLIDO` with the error field holding `str` of the
cause.  The two failure kinds are distinguishable only insofar as those
cause strings happen to differ; no structural discriminator exists in the
final record. -/
theorem envio_fallido_registro_comun :
    ∀ (u w : String) (cs conf : List Comando) (resps : List RespuestaHTTP)
      (causa : CausaFallo),
      (esperarPago cs (estadoInicialRun u w)).1 = true →
      ((esperarPago cs (estadoInicialRun u w)).2).estado ≠ .CANCELADO →
      (reintentar resps maxIntentos).1 = .error causa →
      ∃ e, runWorkflow u w cs resps conf = some e ∧
        e.resultado.resultado_workflow = "ENVIO_FALLIDO" ∧
        e.resultado.detalles_envio = .fallido (strCausa causa) ∧
        e.envioInvocado = true := by
  intro u w cs conf resps causa h1 h2 h3
  simp only [runWorkflow]
  rcases hp : esperarPago cs (estadoInicialRun u w) with ⟨b, s1⟩
  rw [hp] at h1 h2
  cases b with
  | false => simp at h1
  | true =>
    have h2' : s1.estado ≠ .CANCELADO := h2
    simp only [h3]
    rw [if_neg h2']
    exact ⟨_, rfl, rfl, rfl, rfl⟩

/-- Witness for the amended C7: terms accepted and purchase completed,
then a 400 rejection; the run ends `ENVIO_FALLIDO` with the cause's
string. -/
theorem envio_fallido_registro_comun_testigo :
    ∃ e, runWorkflow "u" "w" [.aceptar, .completar] respuestasRechazo [] = some e ∧
      e.resultado.resultado_workflow = "ENVIO_FALLIDO" ∧
      e.resultado.detalles_envio =
        .fallido (strCausa (.noReintentable "Error de API no reintentable: boom")) ∧
      e.envioInvocado = true :=
  envio_fallido_registro_comun "u" "w" [.aceptar, .completar] [] respuestasRechazo
    (.noReintentable "Error de API no reintentable: boom")
    (by decide) (by decide) rfl

/-- Claim C8: if the 30-minute deadline fires with the cart never having
reached `PAGADO` or `CANCELADO`, the run terminates with state
`ABANDONADO` and outcome tag `ABANDONADO_TIMEOUT`, the shipment activity
is never invoked, and the shipment record is still the initial empty
dict. -/
theorem timeout_abandono :
    ∀ (u w : String) (cs : List Comando) (resps : List RespuestaHTTP) (conf : List Comando),
      (esperarPago cs (estadoInicialRun u w)).1 = false →
      ∃ e, runWorkflow u w cs resps conf = some e ∧
        e.envioInvocado = false ∧
        e.resultado.estado_carrito = .ABANDONADO ∧
        e.resultado.resultado_workflow = "ABANDONADO_TIMEOUT" ∧
        e.resultado.detalles_envio = .vacio := by
  intro u w cs resps conf h
  have henv := esperarPago_envio cs (estadoInicialRun u w)
  simp only [runWorkflow]
  rcases hp : esperarPago cs (estadoInicialRun u w) with ⟨b, s1⟩
  rw [hp] at h henv
  cases b with
  | true => simp at h
  | false =>
    refine ⟨{ resultado := estado_final { s1 with estado := .ABANDONADO } "ABANDONADO_TIMEOUT"
              envioInvocado := false }, rfl, rfl, rfl, rfl, ?_⟩
    exact henv

/-- Witness for C8: no commands at all — the wait times out and the run
abandons with an empty shipment record. -/
theorem timeout_abandono_testigo :
    ∃ e, runWorkflow "u" "w" [] [] [] = some e ∧
      e.envioInvocado = false ∧
      e.resultado.estado_carrito = .ABANDONADO ∧
      e.resultado.resultado_workflow = "ABANDONADO_TIMEOUT" ∧
      e.resultado.detalles_envio = .vacio :=
  timeout_abandono "u" "w" [] [] [] (by decide)
